import Mathlib

/-!
Shallow embedding of the 4heat device-communication client
(`src/homeassistant/components/4heat/_4heat.py`) and proofs about it.

Text is modelled as `List Char`.  Python `int(...)` / `str.zfill` / slicing
are embedded below; the fallible parts return `Option`/`Except`.
-/

set_option maxRecDepth 4096
set_option linter.unusedVariables false

/-- Python `int(...)` digit accumulation over a run of decimal digit chars:
`"042"` evaluates to `42`. -/
def parseNatChars (l : List Char) : Nat :=
  l.foldl (fun a c => 10 * a + (c.toNat - 48)) 0

/-- The decimal digit character for `d < 10`. -/
def digitChar10 (d : Nat) : Char := Char.ofNat (48 + d)

/-- Digit-extraction loop for `natToChars`; `fuel ≥ n` makes it total. -/
def natToCharsAux : Nat → Nat → List Char → List Char
  | 0, _, acc => acc
  | fuel + 1, n, acc =>
    if n = 0 then acc else natToCharsAux fuel (n / 10) (digitChar10 (n % 10) :: acc)

/-- Python `str(n)` for a natural number: most significant digit first,
`"0"` for zero. -/
def natToChars (n : Nat) : List Char :=
  if n = 0 then ['0'] else natToCharsAux n n []

/-- Python `str(v)` for an integer: a `-` sign followed by the digits when
negative. -/
def pyIntStr (v : Int) : List Char :=
  if v < 0 then '-' :: natToChars v.natAbs else natToChars v.natAbs

/-- Python `str.zfill(w)`: left-pad with `'0'` up to width `w`, keeping a
leading sign in front of the padding. -/
def pyZfill (s : List Char) (w : Nat) : List Char :=
  match s with
  | [] => List.replicate w '0'
  | c :: rest =>
    if c = '-' ∨ c = '+' then
      if s.length < w then c :: (List.replicate (w - s.length) '0' ++ rest) else s
    else List.replicate (w - s.length) '0' ++ s

/-- Python `int(s)` on a string: optional sign followed by at least one
decimal digit; anything else raises `ValueError`, modelled as `none`. -/
def pyIntParse (l : List Char) : Option Int :=
  match l with
  | [] => none
  | c :: rest =>
    if c = '-' then
      if rest ≠ [] ∧ rest.all Char.isDigit then some (-(parseNatChars rest : Int)) else none
    else if c = '+' then
      if rest ≠ [] ∧ rest.all Char.isDigit then some ((parseNatChars rest : Int)) else none
    else if (c :: rest).all Char.isDigit then some ((parseNatChars (c :: rest) : Int)) else none

/-- An element of the Python list produced by `literal_eval` on a response:
the protocol emits quoted strings and bare integers. -/
inductive PyVal where
  | str (s : List Char)
  | int (n : Int)
deriving DecidableEq

/-- A top-level Python literal as produced by `literal_eval` on the decoded
response text: a flat list, a bare string, or a bare integer. -/
inductive PyTop where
  | list (vs : List PyVal)
  | str (s : List Char)
  | int (n : Int)
deriving DecidableEq

/-- Skip ASCII spaces, as `literal_eval` tolerates them around tokens. -/
def skipSpaces (l : List Char) : List Char := l.dropWhile (· = ' ')

/-- Scan a quoted string body up to the closing quote `q`;
returns the body and the remaining input. -/
def scanQuoted (q : Char) : List Char → Option (List Char × List Char)
  | [] => none
  | c :: rest =>
    if c = q then some ([], rest)
    else (scanQuoted q rest).map (fun p => (c :: p.1, p.2))

/-- Parse one quoted string (single or double quotes, no escapes — the
protocol never emits any). -/
def parseQuoted : List Char → Option (List Char × List Char)
  | '\'' :: rest => scanQuoted '\'' rest
  | '"' :: rest => scanQuoted '"' rest
  | _ => none

/-- Parse one integer literal (optional minus sign then digits). -/
def parseIntTok (l : List Char) : Option (Int × List Char) :=
  match l with
  | '-' :: rest =>
    let ds := rest.takeWhile Char.isDigit
    if ds = [] then none else some (-(parseNatChars ds : Int), rest.dropWhile Char.isDigit)
  | _ =>
    let ds := l.takeWhile Char.isDigit
    if ds = [] then none else some ((parseNatChars ds : Int), l.dropWhile Char.isDigit)

/-- Parse one list element: a quoted string or an integer. -/
def parseItem (l : List Char) : Option (PyVal × List Char) :=
  match parseQuoted l with
  | some (s, rest) => some (.str s, rest)
  | none => (parseIntTok l).map (fun p => (.int p.1, p.2))

/-- Parse the comma-separated elements of a list literal up to and including
the closing `]`; `fuel` bounds the recursion. -/
def parseItemsAux : Nat → List Char → Option (List PyVal × List Char)
  | 0, _ => none
  | fuel + 1, l =>
    match parseItem (skipSpaces l) with
    | none => none
    | some (v, rest) =>
      match skipSpaces rest with
      | ',' :: rest2 => (parseItemsAux fuel rest2).map (fun p => (v :: p.1, p.2))
      | ']' :: rest2 => some ([v], rest2)
      | _ => none

/-- Model of `ast.literal_eval` on the decoded response text, restricted to
the literal shapes the protocol can produce (a flat list of quoted strings
and integers, a bare quoted string, or a bare integer).  `none` models
`literal_eval` raising on malformed input. -/
def literalEval (text : List Char) : Option PyTop :=
  match skipSpaces text with
  | '[' :: rest =>
    match skipSpaces rest with
    | ']' :: tail => if skipSpaces tail = [] then some (.list []) else none
    | body =>
      match parseItemsAux (body.length + 1) body with
      | some (vs, tail) => if skipSpaces tail = [] then some (.list vs) else none
      | none => none
  | other =>
    match parseQuoted other with
    | some (s, tail) => if skipSpaces tail = [] then some (.str s) else none
    | none =>
      match parseIntTok other with
      | some (n, tail) => if skipSpaces tail = [] then some (.int n) else none
      | none => none

example : literalEval ("['I', 0, 'I005000000000000123']".data)
    = some (.list [.str ("I".data), .int 0, .str ("I005000000000000123".data)]) := by
  decide

example : literalEval ("['I', 0,".data) = none := by decide

/-! ## Sensor readings and the response parse of `send_and_receive` -/

/-- One decoded sensor token, as built in `send_and_receive`:
`{id: sensor[1:6], sensor_type: sensor[0], value: int(sensor[7:])}`. -/
structure SensorReading where
  id : List Char
  sensor_type : Char
  value : Int
deriving DecidableEq

/-- The sensor-token loop of `send_and_receive` over `result[2:]`:
a string element of length `> 6` is decoded (its value suffix must parse as
an integer, else the `int()` call raises); a string element of length `≤ 6`
is skipped; a non-string element makes `len(sensor)` raise.  Any raise is
`none` (it is caught by the enclosing broad `except`). -/
def parseSensors : List PyVal → Option (List SensorReading)
  | [] => some []
  | PyVal.int _ :: _ => none
  | PyVal.str s :: rest =>
    if s.length > 6 then
      match pyIntParse (s.drop 7) with
      | none => none
      | some v => (parseSensors rest).map
          (fun tl => { id := (s.drop 1).take 5, sensor_type := s.headD ' ', value := v } :: tl)
    else parseSensors rest

/-- The structured result `send_and_receive` returns:
`{"result": result[0], "sensors": [...]}`. -/
structure ParsedData where
  result : PyVal
  sensors : List SensorReading
deriving DecidableEq

/-- The parsing stage of `send_and_receive` on the (non-empty) decoded
response text: `literal_eval`, then `result[0]` and the sensor-token loop
over `result[2:]`.  A bare string literal indexes and slices as a string
(every 1-character token is skipped); a bare integer fails at `result[0]`.
`none` models any exception, which the broad `except` then converts. -/
def parseResponse (text : List Char) : Option ParsedData :=
  match literalEval text with
  | none => none
  | some (.int _) => none
  | some (.str []) => none
  | some (.str (c :: rest)) =>
    match parseSensors (((c :: rest).drop 2).map (fun ch => PyVal.str [ch])) with
    | none => none
    | some ss => some { result := PyVal.str [c], sensors := ss }
  | some (.list []) => none
  | some (.list (v0 :: vs)) =>
    (parseSensors ((v0 :: vs).drop 2)).map (fun ss => { result := v0, sensors := ss })

example : parseResponse ("['I', 0, 'I005000000000000123']".data)
    = some { result := PyVal.str ("I".data),
             sensors := [{ id := "00500".data, sensor_type := 'I', value := 123 }] } := by
  decide

/-! ## Errors, device state, and the transport model -/

/-- The error taxonomy of `exceptions.py` (the module itself is not under
`src/`; constructors follow the names used by `_4heat.py`).  `pyError`
stands for a raw Python runtime error (TypeError/IndexError/KeyError/
AssertionError) escaping untyped. -/
inductive FhErr where
  | deviceConnectionError
  | invalidMessage
  | invalidCommand
  | attributeError
  | pyError
  | fourHeatCommandError (cause : FhErr)
  | fourHeatError (cause : FhErr)
deriving DecidableEq

/-- One token of a query list.  `nested` models the list-valued elements the
source's `async_get_state` appends for list arguments (`arg.append([...])`). -/
inductive PyTok where
  | s (tok : List Char)
  | nested (toks : List (List Char))
deriving DecidableEq

/-- A query: the Python list handed to `send_and_receive`. -/
abbrev Query := List PyTok

/-- One sensor entry of the `sensors` dict: `{"sensor_type": ..., "value": ...}`. -/
structure SensorInfo where
  sensor_type : Char
  value : Int
deriving DecidableEq

/-- The static metadata dict set by `update_fourheat`. -/
structure FourHeatMeta where
  model : Option (List Char)
  serial : Option (List Char)
  manufacturer : Option (List Char)
deriving DecidableEq

/-- The mutable state of a `FourHeatDevice` instance (the fields the claims
touch).  `sensors` is an insertion-ordered association list, modelling the
Python dict; `command_is_running` is the serialization gate's busy flag
(`none` = falsy = IDLE). -/
structure FourHeat where
  sensors : Option (List (List Char × SensorInfo))
  initialized : Bool
  last_error : Option FhErr
  command_is_running : Option Query
  fourheat : Option FourHeatMeta
  settings_store : Option PyVal
deriving DecidableEq

/-- Python `dict` lookup on the association list. -/
def lookupA (sd : List (List Char × SensorInfo)) (k : List Char) : Option SensorInfo :=
  match sd with
  | [] => none
  | (k', v) :: rest => if k' = k then some v else lookupA rest k

/-- Python `dict` upsert: update in place when the key exists, else append
(insertion order). -/
def upsertA (sd : List (List Char × SensorInfo)) (k : List Char) (v : SensorInfo) :
    List (List Char × SensorInfo) :=
  match sd with
  | [] => [(k, v)]
  | (k', v') :: rest => if k' = k then (k', v) :: rest else (k', v') :: upsertA rest k v

/-- The `self.sensors[attr]["value"] = value`: overwrite only the value field of
an existing entry. -/
def setValueA : List (List Char × SensorInfo) → List Char → Int →
    List (List Char × SensorInfo)
  | [], _, _ => []
  | (k', e) :: rest, k, v =>
    if k' = k then (k', { e with value := v }) :: setValueA rest k v
    else (k', e) :: setValueA rest k v

/-- What the transport produced for one exchange: a socket-level failure
(connect refused / timeout / reset), or the decoded received text. -/
inductive Wire where
  | fail
  | recv (text : List Char)
deriving DecidableEq

/-- Outcome of one `send_and_receive` call: the returned/raised result, the
post-state, and whether a `_i_am_lazy` cooldown task was scheduled. -/
structure SendResult where
  result : Except FhErr ParsedData
  state : FourHeat
  cooldown : Bool

/-- The failure arm of `send_and_receive`'s broad `except Exception`:
`last_error` is set to a fresh `DeviceConnectionError`, a cooldown task is
spawned, and the error is re-raised; the busy flag is left as is. -/
def connFail (st : FourHeat) : SendResult :=
  { result := .error .deviceConnectionError,
    state := { st with last_error := some .deviceConnectionError },
    cooldown := true }

/-- The `FourHeatDevice.send_and_receive` after the busy-wait loop has been
passed (the loop itself is modelled by the gate semantics below): mark the
gate busy with the query, perform the exchange, parse; on success clear
`last_error` and the busy flag and return the data; on an empty answer or
any raised exception take the `connFail` arm. -/
def send_and_receive (st : FourHeat) (q : Query) (w : Wire) : SendResult :=
  let stBusy := { st with command_is_running := some q }
  match w with
  | .fail => connFail stBusy
  | .recv text =>
    if text = [] then connFail stBusy
    else
      match parseResponse text with
      | none => connFail stBusy
      | some d =>
        { result := .ok d,
          state := { stBusy with last_error := none, command_is_running := none },
          cooldown := false }

/-- The `FourHeatDevice._i_am_lazy` firing: after `RETRY_UPDATE_SLEEP` seconds
it forces the busy flag back to IDLE. -/
def cooldownFire (st : FourHeat) : FourHeat :=
  { st with command_is_running := none }

/-! ## Constants and the command table -/

/-- Modelled from the spec: `const.py` is not under `src/`; §6 fixes the
status vocabulary to `I` (info-class), `O` (ok), `E` (error). -/
def RESULT_INFO : List Char := "I".data

/-- Modelled from the spec: `const.py` is not under `src/` (status `O`). -/
def RESULT_OK : List Char := "O".data

/-- Modelled from the spec: `const.py` is not under `src/` (status `E`). -/
def RESULT_ERROR : List Char := "E".data

/-- Modelled from the spec: `const.py` is not under `src/`; §4.4 fixes the
post-failure recovery window at 5 seconds. -/
def RETRY_UPDATE_SLEEP : Nat := 5

def INFO_COMMAND : List Char := "info".data
def GET_COMMAND : List Char := "get".data
def SET_COMMAND : List Char := "set".data
def ON_COMMAND : List Char := "on".data
def OFF_COMMAND : List Char := "off".data
def UNBLOCK_COMMAND : List Char := "unblock".data

/-- Modelled from the spec: the base-token values of `const.py`'s command
tables are not under `src/`.  The ack-validation code indexes `query[0]`
(status echo) and `query[2]` (first argument token), so each base holds two
tokens; the concrete token text is representative only. -/
def commandBase : List PyTok := [.s ("SEC".data), .s ("1".data)]

/-- Modelled from the spec: `INFO_QUERY` of `const.py` is not under `src/`;
`async_update_data` sends it verbatim as the periodic info query. -/
def INFO_QUERY : Query := commandBase

/-- The `CONF_MODES[mode]`: the command table, mapping the six logical command
names to their base query tokens (`none` = `InvalidCommand`). -/
def commandsTable (cmd : List Char) : Option Query :=
  if cmd = INFO_COMMAND then some INFO_QUERY
  else if cmd = GET_COMMAND then some commandBase
  else if cmd = SET_COMMAND then some commandBase
  else if cmd = ON_COMMAND then some commandBase
  else if cmd = OFF_COMMAND then some commandBase
  else if cmd = UNBLOCK_COMMAND then some commandBase
  else none

/-! ## `async_send_command`: dispatch and acknowledgement validation -/

/-- The `result["result"] == query[0]`: Python `==` between the parsed status
object and a query token; equal only when both are the same string. -/
def statusMatches (d : ParsedData) (q0 : PyTok) : Bool :=
  match q0, d.result with
  | .s t, .str u => t = u
  | _, _ => false

/-- Python slice `query[2][1:6]` on a query token (slicing works on both
strings and lists). -/
def slice16 : PyTok → PyTok
  | .s l => .s ((l.drop 1).take 5)
  | .nested l => .nested ((l.drop 1).take 5)

/-- The `result["sensors"][0]["id"] == query[2][1:6]`: a string id never equals
a list slice. -/
def idMatches (idv : List Char) : PyTok → Bool
  | .s l => idv = l
  | .nested _ => false

/-- The `int(query[2][7:])`: `int()` of a list slice raises TypeError; of a
non-numeric string, ValueError. -/
def intOfTok7 : PyTok → Except FhErr Int
  | .s l =>
    match pyIntParse (l.drop 7) with
    | some n => .ok n
    | none => .error .pyError
  | .nested _ => .error .pyError

/-- The `and`-chained acknowledgement condition of `async_send_command` for
`set` (`wantVal = none`: value must echo `int(query[2][7:])`) and for
`on`/`off`/`unblock` (`wantVal = some 0`), with Python's short-circuit
evaluation order and the raw errors its subexpressions can raise
(IndexError on `result["sensors"][0]` / `query[2]`, TypeError/ValueError
inside `int`). -/
def ackConj (d : ParsedData) (query : Query) (wantType : Char) (wantVal : Option Int) :
    Except FhErr Bool :=
  match query.get? 0 with
  | none => .error .pyError
  | some q0 =>
    if statusMatches d q0 = false then .ok false
    else
      match d.sensors.get? 0 with
      | none => .error .pyError
      | some s0 =>
        match query.get? 2 with
        | none => .error .pyError
        | some q2 =>
          if idMatches s0.id (slice16 q2) = false then .ok false
          else
            match wantVal with
            | some z =>
              if s0.value = z then .ok (s0.sensor_type = wantType) else .ok false
            | none =>
              match intOfTok7 q2 with
              | .error e => .error e
              | .ok n =>
                if s0.value = n then .ok (s0.sensor_type = wantType) else .ok false

/-- What a dispatched command evaluates to: the parsed dict (`info`/`get`)
or Python `True` (acknowledged `set`/`on`/`off`/`unblock`). -/
inductive CmdOutcome where
  | data (d : ParsedData)
  | success
deriving DecidableEq

/-- Outcome of one `async_send_command` call: result or raised error, the
post-state, whether a cooldown was scheduled, and whether a transport
exchange was performed at all. -/
structure DispatchResult where
  result : Except FhErr CmdOutcome
  state : FourHeat
  cooldown : Bool
  exchanged : Bool

/-- The `self.commands[command] + arg` when `arg` is truthy, else the base
tokens alone. -/
def queryOf (base : Query) (arg : Option (List PyTok)) : Query :=
  match arg with
  | none => base
  | some l => if l = [] then base else base ++ l

/-- The `FourHeatDevice.async_send_command`.  Unknown command: `InvalidCommand`
without touching the gate.  Known command: concatenate base and (truthy)
argument tokens, run `send_and_receive`, then validate:

* `info` — the source compares the whole result dict to the string
  `RESULT_ERROR` (`if result == RESULT_ERROR:`), which is `False` in Python
  for every dict, so the `else` arm returns the parsed result;
* `get` — returns the parsed result verbatim;
* `set` and `on`/`off`/`unblock` — the `ackConj` echo checks, `True` on
  match, else fall through to `raise InvalidMessage` (which the
  `except DeviceConnectionError` clause does not catch);
* a `DeviceConnectionError` from the exchange is re-raised as
  `FourHeatCommandError`. -/
def async_send_command (st : FourHeat) (cmd : List Char) (arg : Option (List PyTok))
    (w : Wire) : DispatchResult :=
  match commandsTable cmd with
  | none => { result := .error .invalidCommand, state := st, cooldown := false, exchanged := false }
  | some base =>
    let query := queryOf base arg
    let r := send_and_receive st query w
    match r.result with
    | .error e =>
      { result := .error (.fourHeatCommandError e), state := r.state,
        cooldown := r.cooldown, exchanged := true }
    | .ok d =>
      if cmd = INFO_COMMAND then
        { result := .ok (.data d), state := r.state, cooldown := r.cooldown, exchanged := true }
      else if cmd = GET_COMMAND then
        { result := .ok (.data d), state := r.state, cooldown := r.cooldown, exchanged := true }
      else
        match (if cmd = SET_COMMAND then ackConj d query 'A' none else .ok false :
            Except FhErr Bool) with
        | .error e =>
          { result := .error e, state := r.state, cooldown := r.cooldown, exchanged := true }
        | .ok true =>
          { result := .ok .success, state := r.state, cooldown := r.cooldown, exchanged := true }
        | .ok false =>
          match (if cmd = ON_COMMAND ∨ cmd = OFF_COMMAND ∨ cmd = UNBLOCK_COMMAND then
              ackConj d query 'I' (some 0) else .ok false : Except FhErr Bool) with
          | .error e =>
            { result := .error e, state := r.state, cooldown := r.cooldown, exchanged := true }
          | .ok true =>
            { result := .ok .success, state := r.state, cooldown := r.cooldown, exchanged := true }
          | .ok false =>
            { result := .error .invalidMessage, state := r.state,
              cooldown := r.cooldown, exchanged := true }

/-! ## The facade operations -/

/-- The `f"I{id}{str(0).zfill(12)}"`: the zero-value read token for a sensor id. -/
def mkIToken (id : List Char) : List Char := 'I' :: (id ++ pyZfill (pyIntStr 0) 12)

/-- The `f"B{id}{str(value).zfill(12)}"`: the write token of `async_set_state`. -/
def mkBToken (id : List Char) (v : Int) : List Char := 'B' :: (id ++ pyZfill (pyIntStr v) 12)

/-- Outcome of an `async_update_data` call. -/
structure UpdateResult where
  result : Except FhErr Unit
  state : FourHeat
  cooldown : Bool

/-- Python dict-merge loop of `async_update_data`: insert unseen ids,
`update` existing entries (overwriting both fields) in response order. -/
def mergeReadings (sd : List (List Char × SensorInfo)) (items : List SensorReading) :
    List (List Char × SensorInfo) :=
  items.foldl (fun acc it => upsertA acc it.id { sensor_type := it.sensor_type, value := it.value }) sd

/-- The `FourHeatDevice.async_update_data`: send `INFO_QUERY`; on
`DeviceConnectionError` re-raise `self._last_error`.  If the parsed status
equals `RESULT_ERROR`, `assert self.sensors` (a `None`/empty dict fails the
assert) and dispatch a `get` whose argument holds one `I`-typed zero-padded
zero-value token per known sensor id; its result is discarded and the
`elif` merge arm is skipped.  Otherwise the source's condition
`result["result"] == RESULT_INFO or RESULT_OK` is the equality test
or-ed with the truthiness of the non-empty constant string `RESULT_OK`, so
the merge arm runs for every non-ERROR status, upserting the readings and
clearing `last_error` (`item["id"] not in self.sensors` raises on a `None`
sensors dict when there is at least one reading). -/
def async_update_data (st : FourHeat) (w1 w2 : Wire) : UpdateResult :=
  let r1 := send_and_receive st INFO_QUERY w1
  match r1.result with
  | .error e => { result := .error e, state := r1.state, cooldown := r1.cooldown }
  | .ok d =>
    if d.result = PyVal.str RESULT_ERROR then
      match r1.state.sensors with
      | none => { result := .error .pyError, state := r1.state, cooldown := r1.cooldown }
      | some sd =>
        if sd = [] then { result := .error .pyError, state := r1.state, cooldown := r1.cooldown }
        else
          let errorQuery := sd.map (fun p => PyTok.s (mkIToken p.1))
          let r2 := async_send_command r1.state GET_COMMAND (some errorQuery) w2
          match r2.result with
          | .error e =>
            { result := .error e, state := r2.state, cooldown := r1.cooldown || r2.cooldown }
          | .ok _ =>
            { result := .ok (), state := r2.state, cooldown := r1.cooldown || r2.cooldown }
    else
      if (d.result = PyVal.str RESULT_INFO) || (RESULT_OK ≠ []) then
        match r1.state.sensors with
        | none =>
          if d.sensors = [] then
            { result := .ok (), state := { r1.state with last_error := none },
              cooldown := r1.cooldown }
          else
            { result := .error .pyError, state := r1.state, cooldown := r1.cooldown }
        | some sd =>
          { result := .ok (),
            state := { r1.state with
                        sensors := some (mergeReadings sd d.sensors)
                        last_error := none },
            cooldown := r1.cooldown }
      else
        { result := .ok (), state := r1.state, cooldown := r1.cooldown }

/-- Outcome of an `async_set_state` / `async_get_state` call; `exchanged`
records whether any transport exchange was performed. -/
structure StateCallResult where
  result : Except FhErr CmdOutcome
  state : FourHeat
  cooldown : Bool
  exchanged : Bool

/-- The `FourHeatDevice.async_set_state`: an id absent from `sensors` or carrying
the read-only sensor type `J` raises `AttributeError` before any network
activity (`attr not in None` raises TypeError when `sensors` is unset);
otherwise dispatch `set` with the `B`-typed token and, on acknowledgement,
optimistically overwrite the cached value with the written one and return
`True`; dispatch-level errors are wrapped in `FourHeatCommandError`. -/
def async_set_state (st : FourHeat) (attr : List Char) (v : Int) (w : Wire) :
    StateCallResult :=
  match st.sensors with
  | none => { result := .error .pyError, state := st, cooldown := false, exchanged := false }
  | some sd =>
    match lookupA sd attr with
    | none => { result := .error .attributeError, state := st, cooldown := false, exchanged := false }
    | some e =>
      if e.sensor_type = 'J' then
        { result := .error .attributeError, state := st, cooldown := false, exchanged := false }
      else
        let r := async_send_command st SET_COMMAND (some [PyTok.s (mkBToken attr v)]) w
        match r.result with
        | .ok _ =>
          { result := .ok .success,
            state := { r.state with sensors := r.state.sensors.map (fun sd2 => setValueA sd2 attr v) },
            cooldown := r.cooldown, exchanged := r.exchanged }
        | .error err =>
          match err with
          | .fourHeatCommandError _ | .invalidMessage | .invalidCommand =>
            { result := .error (.fourHeatCommandError err), state := r.state,
              cooldown := r.cooldown, exchanged := r.exchanged }
          | _ =>
            { result := .error err, state := r.state,
              cooldown := r.cooldown, exchanged := r.exchanged }

/-- The argument of `async_get_state`: a single id string or a list of ids. -/
inductive AttrArg where
  | str (s : List Char)
  | list (l : List (List Char))
deriving DecidableEq

/-- The write-back loop of `async_get_state`:
`self.sensors[sensor["id"]]["value"] = ...` raises KeyError for an id the
dict does not hold. -/
def writeBackReadings (sd : List (List Char × SensorInfo)) :
    List SensorReading → Except FhErr (List (List Char × SensorInfo))
  | [] => .ok sd
  | it :: rest =>
    match lookupA sd it.id with
    | none => .error .pyError
    | some _ =>
      writeBackReadings (upsertA sd it.id { sensor_type := it.sensor_type, value := it.value }) rest

/-- The `FourHeatDevice.async_get_state`.  First check: a string argument absent
from `sensors` raises `AttributeError`.  Second check:
`all(item in self.sensors for item in attr)` — for a string argument this
iterates its characters as 1-character strings; for a list argument, the
ids.  Then the token list is built (`[f"I{item}..."]` wrapped in an extra
list per item in the list case, a flat token in the string case), `get` is
dispatched, and the returned readings are written back.  Membership tests
against an unset (`None`) `sensors` dict raise TypeError, except that an
empty iteration makes `all` vacuously true. -/
def async_get_state (st : FourHeat) (attr : AttrArg) (w : Wire) : StateCallResult :=
  let noCall : FhErr → StateCallResult := fun e =>
    { result := .error e, state := st, cooldown := false, exchanged := false }
  let check1 : Except FhErr Unit :=
    match attr with
    | .str s =>
      match st.sensors with
      | none => .error .pyError
      | some sd => if lookupA sd s = none then .error .attributeError else .ok ()
    | .list _ => .ok ()
  match check1 with
  | .error e => noCall e
  | .ok _ =>
    let items : List (List Char) :=
      match attr with
      | .str s => s.map (fun c => [c])
      | .list l => l
    let check2 : Except FhErr Unit :=
      match st.sensors with
      | none => if items = [] then .ok () else .error .pyError
      | some sd =>
        if items.all (fun i => (lookupA sd i).isSome) then .ok () else .error .attributeError
    match check2 with
    | .error e => noCall e
    | .ok _ =>
      let arg : List PyTok :=
        match attr with
        | .str s => [PyTok.s (mkIToken s)]
        | .list l => l.map (fun i => PyTok.nested [mkIToken i])
      let r := async_send_command st GET_COMMAND (some arg) w
      match r.result with
      | .ok (.data d) =>
        match r.state.sensors with
        | none =>
          if d.sensors = [] then
            { result := .ok (.data d), state := r.state, cooldown := r.cooldown,
              exchanged := r.exchanged }
          else
            { result := .error .pyError, state := r.state, cooldown := r.cooldown,
              exchanged := r.exchanged }
        | some sd =>
          match writeBackReadings sd d.sensors with
          | .error e =>
            { result := .error e, state := r.state, cooldown := r.cooldown,
              exchanged := r.exchanged }
          | .ok sd2 =>
            { result := .ok (.data d), state := { r.state with sensors := some sd2 },
              cooldown := r.cooldown, exchanged := r.exchanged }
      | .ok .success =>
        { result := .error .pyError, state := r.state, cooldown := r.cooldown,
          exchanged := r.exchanged }
      | .error err =>
        match err with
        | .fourHeatCommandError _ | .invalidMessage | .invalidCommand =>
          { result := .error (.fourHeatCommandError err), state := r.state,
            cooldown := r.cooldown, exchanged := r.exchanged }
        | _ =>
          { result := .error err, state := r.state,
            cooldown := r.cooldown, exchanged := r.exchanged }




/-! ## Facade accessors -/

/-- Modelled from the spec: `DEVICE_STATE_SENSOR` of `const.py` is not under
`src/`; it names the sensor id whose cached value encodes the device state. -/
def DEVICE_STATE_SENSOR : List Char := "30001".data

/-- Modelled from the spec: `STATES_OFF` of `const.py` is not under `src/`;
it lists the state-sensor values that count as "off". -/
def STATES_OFF : List (Option Int) := [some 0]

def STATE_ON : List Char := "on".data
def STATE_OFF : List Char := "off".data

/-- The `FourHeatDevice.info`: `None` before initialization, else
`self.sensors[attr]` (KeyError for an unknown id). -/
def infoAttr (st : FourHeat) (attr : List Char) : Except FhErr (Option SensorInfo) :=
  if st.initialized = false then .ok none
  else
    match st.sensors with
    | none => .error .pyError
    | some sd =>
      match lookupA sd attr with
      | none => .error .pyError
      | some e => .ok (some e)

/-- The `FourHeatDevice.__getattr__`: `None` before initialization; afterwards
an id outside `self.attributes` raises `AttributeError`, else the cached
`value` is returned (`in None` raises when `sensors` is unset). -/
def getattrDyn (st : FourHeat) (attr : List Char) : Except FhErr (Option Int) :=
  if st.initialized = false then .ok none
  else
    match st.sensors with
    | none => .error .pyError
    | some sd =>
      match lookupA sd attr with
      | none => .error .attributeError
      | some e => .ok (some e.value)

/-- The `settings` property: `None` before initialization, else the stored
`_settings`. -/
def settingsProp (st : FourHeat) : Option PyVal :=
  if st.initialized = false then none else st.settings_store

/-- The `status` property: `None` before initialization, else `STATE_ON`
unless the state sensor's dynamic value is listed in `STATES_OFF`. -/
def statusProp (st : FourHeat) : Except FhErr (Option (List Char)) :=
  if st.initialized = false then .ok none
  else
    match getattrDyn st DEVICE_STATE_SENSOR with
    | .error e => .error e
    | .ok v => .ok (some (if (STATES_OFF.contains v : Bool) then STATE_OFF else STATE_ON))

/-- The `model` property: `None` before initialization, else
`self.fourheat["model"]` (`None["model"]` raises when unset). -/
def modelProp (st : FourHeat) : Except FhErr (Option (List Char)) :=
  if st.initialized = false then .ok none
  else
    match st.fourheat with
    | none => .error .pyError
    | some m => .ok m.model

/-- The `serial` property: `None` before initialization, else
`self.fourheat["serial"] or None`. -/
def serialProp (st : FourHeat) : Except FhErr (Option (List Char)) :=
  if st.initialized = false then .ok none
  else
    match st.fourheat with
    | none => .error .pyError
    | some m => .ok (match m.serial with
        | some s => if s = [] then none else some s
        | none => none)

/-- The `manufacturer` property: `None` before initialization, else after
`assert self.fourheat` (unset raises), `self.fourheat["manufacturer"] or None`. -/
def manufacturerProp (st : FourHeat) : Except FhErr (Option (List Char)) :=
  if st.initialized = false then .ok none
  else
    match st.fourheat with
    | none => .error .pyError
    | some m => .ok (match m.manufacturer with
        | some s => if s = [] then none else some s
        | none => none)

/-- The `attributes` property: `None` before initialization, else the
`sensors` dict. -/
def attributesProp (st : FourHeat) : Option (List (List Char × SensorInfo)) :=
  if st.initialized = false then none else st.sensors

/-! ## The serialization gate under cooperative scheduling

`send_and_receive` runs on a single-threaded cooperative event loop.  Its
only suspension points are the `await asyncio.sleep(1)` in the busy-wait
loop and the sleep of the spawned `_i_am_lazy` task; the final busy-flag
test, the `self._command_is_running = query` transition, the (synchronous)
socket exchange and the flag clear all run without an intervening
suspension point.  The step relation below makes exactly the suspension
points scheduling boundaries: `active` is the task holding the event loop,
and control can move only when no task holds it. -/

/-- Control state of one `dispatch` caller: at the busy-wait test, parked in
`asyncio.sleep(1)`, inside the exchange (between marking the gate busy and
completing), or finished. -/
inductive GatePC where
  | poll
  | sleeping
  | crit
  | done
deriving DecidableEq

/-- Global configuration: the busy flag, which task (if any) currently holds
the event loop, each caller's control state, and whether a `_i_am_lazy`
cooldown task is pending. -/
structure GateConfig where
  busy : Bool
  active : Option (Fin 2)
  pc : Fin 2 → GatePC
  cdPending : Bool

/-- One event-loop step of the two-caller system. -/
inductive GateStep : GateConfig → GateConfig → Prop
  | schedule (c : GateConfig) (i : Fin 2) (ha : c.active = none) (hp : c.pc i = .poll) :
      GateStep c { c with active := some i }
  | observeBusy (c : GateConfig) (i : Fin 2) (ha : c.active = some i) (hp : c.pc i = .poll)
      (hb : c.busy = true) :
      GateStep c { c with active := none, pc := Function.update c.pc i .sleeping }
  | wake (c : GateConfig) (i : Fin 2) (ha : c.active = none) (hp : c.pc i = .sleeping) :
      GateStep c { c with active := some i, pc := Function.update c.pc i .poll }
  | enter (c : GateConfig) (i : Fin 2) (ha : c.active = some i) (hp : c.pc i = .poll)
      (hb : c.busy = false) :
      GateStep c { c with busy := true, pc := Function.update c.pc i .crit }
  | finishOk (c : GateConfig) (i : Fin 2) (ha : c.active = some i) (hp : c.pc i = .crit) :
      GateStep c { c with busy := false, active := none, pc := Function.update c.pc i .done }
  | finishFail (c : GateConfig) (i : Fin 2) (ha : c.active = some i) (hp : c.pc i = .crit) :
      GateStep c { c with active := none, pc := Function.update c.pc i .done, cdPending := true }
  | cooldownRun (c : GateConfig) (ha : c.active = none) (hcd : c.cdPending = true) :
      GateStep c { c with busy := false, cdPending := false }

/-- Both callers at the busy-wait test, gate IDLE, loop free. -/
def gateInit : GateConfig :=
  { busy := false, active := none, pc := fun _ => .poll, cdPending := false }

/-- The inductive gate invariant: a caller inside the exchange holds the
event loop and has the busy flag set. -/
def GateInv (c : GateConfig) : Prop :=
  ∀ i : Fin 2, c.pc i = .crit → c.active = some i ∧ c.busy = true

/-! ## The cooldown window as discrete time

After a failure at second `failT`, the busy flag stays set until the
`_i_am_lazy` task clears it at `failT + RETRY_UPDATE_SLEEP`.  A dispatch
arriving at second `t` re-tests the flag once per second. -/

/-- Whether the gate is still held busy by the post-failure cooldown at
second `t`. -/
def busyDuringCooldown (failT t : Nat) : Bool := t < failT + RETRY_UPDATE_SLEEP

/-- The busy-wait loop of a dispatch arriving at second `t` during a
cooldown that started at `failT`: re-test every second, proceed at the
first second at which the flag is clear. -/
def pollProceed (failT : Nat) (t : Nat) : Nat :=
  if busyDuringCooldown failT t then pollProceed failT (t + 1) else t
termination_by failT + RETRY_UPDATE_SLEEP - t
decreasing_by
  simp only [busyDuringCooldown, decide_eq_true_eq] at *
  omega

/-! ## Helper lemmas -/

/-- Dichotomy for one `send_and_receive` call: either it succeeds, schedules
no cooldown and clears the busy flag, or it raises `DeviceConnectionError`,
schedules the cooldown and leaves the busy flag holding the query. -/
theorem send_and_receive_dichotomy (st : FourHeat) (q : Query) (w : Wire) :
    ((send_and_receive st q w).cooldown = false ∧
     (send_and_receive st q w).state.command_is_running = none ∧
     ∃ d, (send_and_receive st q w).result = .ok d) ∨
    ((send_and_receive st q w).cooldown = true ∧
     (send_and_receive st q w).state.command_is_running = some q ∧
     (send_and_receive st q w).result = .error .deviceConnectionError) := by
  cases w with
  | fail => right; exact ⟨rfl, rfl, rfl⟩
  | recv text =>
    by_cases ht : text = []
    · right; simp [send_and_receive, ht, connFail]
    · cases hp : parseResponse text with
      | none => right; simp [send_and_receive, ht, hp, connFail]
      | some d => left; simp [send_and_receive, ht, hp]

/-- The `send_and_receive` never touches the `sensors` dict. -/
theorem send_and_receive_sensors (st : FourHeat) (q : Query) (w : Wire) :
    (send_and_receive st q w).state.sensors = st.sensors := by
  cases w with
  | fail => rfl
  | recv text =>
    by_cases ht : text = []
    · simp [send_and_receive, ht, connFail]
    · cases hp : parseResponse text with
      | none => simp [send_and_receive, ht, hp, connFail]
      | some d => simp [send_and_receive, ht, hp]


/-- The `async_send_command` on a known command passes the post-state of the
underlying `send_and_receive` call through unchanged. -/
theorem async_send_command_state (st : FourHeat) (cmd : List Char)
    (arg : Option (List PyTok)) (w : Wire) (base : Query)
    (h : commandsTable cmd = some base) :
    (async_send_command st cmd arg w).state = (send_and_receive st (queryOf base arg) w).state := by
  unfold async_send_command
  rw [h]
  cases hres : (send_and_receive st (queryOf base arg) w).result with
  | error e => simp only [hres]
  | ok d =>
    simp only [hres]
    (repeat' split) <;> rfl

/-- The `async_send_command` on a known command passes the cooldown flag of the
underlying `send_and_receive` call through unchanged. -/
theorem async_send_command_cooldown (st : FourHeat) (cmd : List Char)
    (arg : Option (List PyTok)) (w : Wire) (base : Query)
    (h : commandsTable cmd = some base) :
    (async_send_command st cmd arg w).cooldown =
      (send_and_receive st (queryOf base arg) w).cooldown := by
  unfold async_send_command
  rw [h]
  cases hres : (send_and_receive st (queryOf base arg) w).result with
  | error e => simp only [hres]
  | ok d =>
    simp only [hres]
    (repeat' split) <;> rfl

/-- A non-error `async_send_command` result requires a successful exchange. -/
theorem async_send_command_ok_exchange (st : FourHeat) (cmd : List Char)
    (arg : Option (List PyTok)) (w : Wire) (base : Query)
    (h : commandsTable cmd = some base) :
    ∀ v, (async_send_command st cmd arg w).result = .ok v →
      ∃ d, (send_and_receive st (queryOf base arg) w).result = .ok d := by
  unfold async_send_command
  rw [h]
  cases hres : (send_and_receive st (queryOf base arg) w).result with
  | error e =>
    simp only [hres]
    intro v hv
    exact Except.noConfusion hv
  | ok d => exact fun v _ => ⟨d, rfl⟩

/-- A `DeviceConnectionError` from the exchange is re-raised by
`async_send_command` wrapped in `FourHeatCommandError`. -/
theorem async_send_command_wraps_conn_error (st : FourHeat) (cmd : List Char)
    (arg : Option (List PyTok)) (w : Wire) (base : Query)
    (h : commandsTable cmd = some base)
    (he : (send_and_receive st (queryOf base arg) w).result = .error .deviceConnectionError) :
    (async_send_command st cmd arg w).result =
      .error (.fourHeatCommandError .deviceConnectionError) := by
  unfold async_send_command
  rw [h]
  simp only [he]

/-! ## Concrete states for the closed evaluations -/

/-- A fresh, uninitialized device state. -/
def baseState : FourHeat :=
  { sensors := none, initialized := false, last_error := none,
    command_is_running := none, fourheat := none, settings_store := none }

/-! ## Claim theorems -/

/-- C1: every dispatch of a known command that terminates — returning a
result or raising (including an acknowledgement-validation
`InvalidMessage`) — leaves the serialization gate IDLE: immediately
(and with no cooldown) on success, and after the cooldown fires on a
communication failure; no terminated dispatch leaves the gate BUSY
forever. -/
theorem c1_gate_returns_to_idle (st : FourHeat) (cmd : List Char)
    (arg : Option (List PyTok)) (w : Wire) (base : Query)
    (h : commandsTable cmd = some base) :
    ((if (async_send_command st cmd arg w).cooldown then
        cooldownFire (async_send_command st cmd arg w).state
      else (async_send_command st cmd arg w).state).command_is_running = none) ∧
    (∀ v, (async_send_command st cmd arg w).result = .ok v →
      (async_send_command st cmd arg w).state.command_is_running = none ∧
      (async_send_command st cmd arg w).cooldown = false) := by
  have hst := async_send_command_state st cmd arg w base h
  have hcd := async_send_command_cooldown st cmd arg w base h
  have hok := async_send_command_ok_exchange st cmd arg w base h
  rcases send_and_receive_dichotomy st (queryOf base arg) w with ⟨h1, h2, -⟩ | ⟨h1, h2, h3⟩
  · constructor
    · rw [hcd, h1]
      simp only [Bool.false_eq_true, if_false]
      rw [hst]
      exact h2
    · intro v _
      exact ⟨by rw [hst]; exact h2, by rw [hcd]; exact h1⟩
  · constructor
    · rw [hcd, h1]
      simp only [if_true]
      rfl
    · intro v hv
      rcases hok v hv with ⟨d, hd⟩
      rw [h3] at hd
      exact Except.noConfusion hd

/-- C1 witness: a successful `info` dispatch at a concrete input. -/
theorem c1_gate_returns_to_idle_witness :
    ((if (async_send_command baseState INFO_COMMAND none (Wire.recv ("['I', 0]".data))).cooldown
        then cooldownFire (async_send_command baseState INFO_COMMAND none
          (Wire.recv ("['I', 0]".data))).state
      else (async_send_command baseState INFO_COMMAND none
          (Wire.recv ("['I', 0]".data))).state).command_is_running = none) ∧
    (∀ v, (async_send_command baseState INFO_COMMAND none
        (Wire.recv ("['I', 0]".data))).result = .ok v →
      (async_send_command baseState INFO_COMMAND none
        (Wire.recv ("['I', 0]".data))).state.command_is_running = none ∧
      (async_send_command baseState INFO_COMMAND none
        (Wire.recv ("['I', 0]".data))).cooldown = false) :=
  c1_gate_returns_to_idle baseState INFO_COMMAND none (Wire.recv ("['I', 0]".data))
    INFO_QUERY (by decide)

/-- C9: before `initialize()` has succeeded, every facade accessor —
`status`, `settings`, `model`, `serial`, `manufacturer`, `attributes`,
`info(attr)` and dynamic sensor-value attribute access — returns `None`
instead of raising, for every argument. -/
theorem c9_uninitialized_accessors_none (st : FourHeat) (attr : List Char)
    (h : st.initialized = false) :
    infoAttr st attr = .ok none ∧ getattrDyn st attr = .ok none ∧
    settingsProp st = none ∧ statusProp st = .ok none ∧ modelProp st = .ok none ∧
    serialProp st = .ok none ∧ manufacturerProp st = .ok none ∧
    attributesProp st = none := by
  simp [infoAttr, getattrDyn, settingsProp, statusProp, modelProp, serialProp,
    manufacturerProp, attributesProp, h]

/-- C9 witness: the accessors at a concrete uninitialized state. -/
theorem c9_uninitialized_accessors_none_witness :
    infoAttr baseState ("30001".data) = .ok none ∧
    getattrDyn baseState ("30001".data) = .ok none ∧
    settingsProp baseState = none ∧ statusProp baseState = .ok none ∧
    modelProp baseState = .ok none ∧ serialProp baseState = .ok none ∧
    manufacturerProp baseState = .ok none ∧ attributesProp baseState = none :=
  c9_uninitialized_accessors_none baseState ("30001".data) rfl

/-- C4 counterexample: on a malformed list literal (unterminated bracket,
Scenario D) the parse failure is swallowed by the broad `except Exception`
of `send_and_receive` and surfaces as `DeviceConnectionError`, not as the
`InvalidMessage` the claim requires. -/
theorem c4_malformed_literal_not_invalid_message :
    (send_and_receive baseState INFO_QUERY (Wire.recv ("['I', 0,".data))).result =
      .error .deviceConnectionError ∧
    FhErr.deviceConnectionError ≠ FhErr.invalidMessage := by
  exact ⟨rfl, by decide⟩

/-- C4 amended: every response whose decoded text fails the parse stage
(malformed list literal, or a kept token whose value suffix does not parse
as an integer) makes the dispatch fail with `DeviceConnectionError`
(wrapped as `FourHeatCommandError` at the `async_send_command` level),
sets `last_error`, and schedules the cooldown, so the gate stays BUSY and
returns to IDLE only when the cooldown fires. -/
theorem c4_parse_failure_is_connection_error (st : FourHeat) (q : Query)
    (text : List Char) (h : parseResponse text = none) :
    (send_and_receive st q (Wire.recv text)).result = .error .deviceConnectionError ∧
    (send_and_receive st q (Wire.recv text)).state.last_error =
      some .deviceConnectionError ∧
    (send_and_receive st q (Wire.recv text)).cooldown = true ∧
    (send_and_receive st q (Wire.recv text)).state.command_is_running = some q ∧
    (cooldownFire (send_and_receive st q (Wire.recv text)).state).command_is_running = none := by
  by_cases ht : text = []
  · subst ht
    simp [send_and_receive, connFail, cooldownFire]
  · simp [send_and_receive, ht, h, connFail, cooldownFire]

/-- C4 witness: a response with a kept token whose value suffix is not an
integer, at a concrete input. -/
theorem c4_parse_failure_is_connection_error_witness :
    (send_and_receive baseState INFO_QUERY
        (Wire.recv ("['I', 0, 'IabcdeXYZ']".data))).result = .error .deviceConnectionError ∧
    (send_and_receive baseState INFO_QUERY
        (Wire.recv ("['I', 0, 'IabcdeXYZ']".data))).state.last_error =
      some .deviceConnectionError ∧
    (send_and_receive baseState INFO_QUERY
        (Wire.recv ("['I', 0, 'IabcdeXYZ']".data))).cooldown = true ∧
    (send_and_receive baseState INFO_QUERY
        (Wire.recv ("['I', 0, 'IabcdeXYZ']".data))).state.command_is_running =
      some INFO_QUERY ∧
    (cooldownFire (send_and_receive baseState INFO_QUERY
        (Wire.recv ("['I', 0, 'IabcdeXYZ']".data))).state).command_is_running = none :=
  c4_parse_failure_is_connection_error baseState INFO_QUERY
    ("['I', 0, 'IabcdeXYZ']".data) (by decide)

/-- C5 counterexample: a response token of length exactly 7 is not "kept
and parsed" — it enters the decode branch but its value suffix
`chars[7:]` is empty, `int("")` raises, and the whole sensor parse fails. -/
theorem c5_length_seven_token_fails :
    ("A123456".data).length = 7 ∧ parseSensors [PyVal.str ("A123456".data)] = none := by
  decide

/-- C5 amended: a token of length ≤ 6 is skipped without error; a token of
length ≥ 7 is kept and decoded as id `chars[1:6]`, type `chars[0]`, value
`int(chars[7:])` whenever that suffix parses as an integer; a token of
length exactly 7 is kept but its empty value suffix fails to parse,
failing the whole sensor parse. -/
theorem c5_token_length_boundary (tok : List Char) (rest : List PyVal) :
    (tok.length ≤ 6 → parseSensors (PyVal.str tok :: rest) = parseSensors rest) ∧
    (tok.length = 7 → parseSensors (PyVal.str tok :: rest) = none) ∧
    (∀ v : Int, 6 < tok.length → pyIntParse (tok.drop 7) = some v →
      parseSensors (PyVal.str tok :: rest) = (parseSensors rest).map
        (fun tl => { id := (tok.drop 1).take 5, sensor_type := tok.headD ' ',
                     value := v } :: tl)) := by
  refine ⟨?_, ?_, ?_⟩
  · intro h6
    have hn : ¬ (tok.length > 6) := by omega
    simp [parseSensors, hn]
  · intro h7
    have hd : tok.drop 7 = [] := List.drop_eq_nil_of_le (by omega)
    simp [parseSensors, h7, hd, pyIntParse]
  · intro v h6 hp
    simp [parseSensors, h6, hp]

/-- C5 witness: a length-3 filler token is skipped, a length-7 token fails
the parse, a full-length token decodes to its id, type and value. -/
theorem c5_token_length_boundary_witness :
    parseSensors [PyVal.str ("ERR".data)] = parseSensors [] ∧
    parseSensors [PyVal.str ("B999999".data)] = none ∧
    parseSensors [PyVal.str ("I00500000000000042".data)] = (parseSensors []).map
      (fun tl => { id := (("I00500000000000042".data).drop 1).take 5,
                   sensor_type := ("I00500000000000042".data).headD ' ',
                   value := (42 : Int) } :: tl) :=
  ⟨(c5_token_length_boundary ("ERR".data) []).1 (by decide),
   (c5_token_length_boundary ("B999999".data) []).2.1 (by decide),
   (c5_token_length_boundary ("I00500000000000042".data) []).2.2 42 (by decide) (by decide)⟩

/-- A device state holding one known sensor `00001`, used for the
`async_update_data` evaluation. -/
def c2State : FourHeat :=
  { sensors := some [("00001".data, { sensor_type := 'J', value := 1 })],
    initialized := true, last_error := some .deviceConnectionError,
    command_is_running := none, fourheat := none, settings_store := none }

/-- A response whose status `X` is outside the known vocabulary and which
carries one reading for the unseen sensor `00002`. -/
def c2Wire : Wire := Wire.recv ("['X', 0, 'I00002000000000007']".data)

/-- C2: evaluation of `async_update_data` at a response with the unknown
status `X`: the source's `elif result["result"] == RESULT_INFO or
RESULT_OK` is always true for a non-ERROR status (operator precedence),
so the reading for the unseen id `00002` is merged into `sensors` and
`last_error` is cleared — the claim says no merge may occur for an
unknown status. -/
theorem c2_unknown_status_still_merges :
    (async_update_data c2State c2Wire Wire.fail).result = .ok () ∧
    (async_update_data c2State c2Wire Wire.fail).state.sensors =
      some [("00001".data, { sensor_type := 'J', value := 1 }),
            ("00002".data, { sensor_type := 'I', value := 7 })] ∧
    (async_update_data c2State c2Wire Wire.fail).state.last_error = none ∧
    ("X".data ≠ RESULT_INFO ∧ "X".data ≠ RESULT_OK ∧ "X".data ≠ RESULT_ERROR) := by
  refine ⟨rfl, by decide, rfl, by decide⟩

/-- A device state holding the single sensor `00500`, used for the
`async_get_state` evaluation. -/
def c6State : FourHeat :=
  { sensors := some [("00500".data, { sensor_type := 'I', value := 0 })],
    initialized := true, last_error := none,
    command_is_running := none, fourheat := none, settings_store := none }

/-- C6: evaluation of `async_get_state` at a single id string that is
present in `sensors`: the source's second check
`all(item in self.sensors for item in attr)` iterates the *characters* of
the id string, none of which is a sensor key, so the call raises
`AttributeError` and performs no exchange — the claim says a present id
must be dispatched as a `get`. -/
theorem c6_present_string_id_still_fails :
    lookupA [("00500".data, { sensor_type := 'I', value := 0 })] ("00500".data) ≠ none ∧
    (async_get_state c6State (AttrArg.str ("00500".data)) Wire.fail).result =
      .error .attributeError ∧
    (async_get_state c6State (AttrArg.str ("00500".data)) Wire.fail).exchanged = false ∧
    (async_get_state c6State (AttrArg.str ("00500".data)) Wire.fail).state = c6State := by
  refine ⟨by decide, rfl, rfl, rfl⟩

/-- Updating only the `value` field commutes with lookup. -/
theorem lookupA_setValueA (sd : List (List Char × SensorInfo)) (k : List Char) (v : Int) :
    lookupA (setValueA sd k v) k = (lookupA sd k).map (fun e => { e with value := v }) := by
  induction sd with
  | nil => rfl
  | cons p rest ih =>
    obtain ⟨k', e⟩ := p
    by_cases h : k' = k
    · simp [setValueA, lookupA, h]
    · simp [setValueA, lookupA, h, ih]

/-- C7: `async_set_state` fails immediately with an attribute error — and
performs no network exchange — when the id is absent from `sensors` or its
sensor type is the read-only `J`; on an acknowledged `set` the cached value
becomes exactly the written value (optimistic update) and the call reports
success. -/
theorem c7_set_state_validation (st : FourHeat) (sd : List (List Char × SensorInfo))
    (attr : List Char) (v : Int) (w : Wire) (hs : st.sensors = some sd) :
    (lookupA sd attr = none →
      async_set_state st attr v w =
        { result := .error .attributeError, state := st, cooldown := false,
          exchanged := false }) ∧
    (∀ e, lookupA sd attr = some e → e.sensor_type = 'J' →
      async_set_state st attr v w =
        { result := .error .attributeError, state := st, cooldown := false,
          exchanged := false }) ∧
    (∀ b, (async_set_state st attr v w).result = .ok b →
      b = CmdOutcome.success ∧
      ∃ sd2, (async_set_state st attr v w).state.sensors = some sd2 ∧
        (lookupA sd2 attr).map (fun e => e.value) = some v) := by
  have hsens : (async_send_command st SET_COMMAND
      (some [PyTok.s (mkBToken attr v)]) w).state.sensors = st.sensors := by
    rw [async_send_command_state st SET_COMMAND
      (some [PyTok.s (mkBToken attr v)]) w commandBase (by rfl)]
    exact send_and_receive_sensors st _ w
  refine ⟨?_, ?_, ?_⟩
  · intro hl
    simp [async_set_state, hs, hl]
  · intro e hl hj
    simp [async_set_state, hs, hl, hj]
  · intro b hb
    cases hl : lookupA sd attr with
    | none =>
      simp [async_set_state, hs, hl] at hb
    | some e =>
      by_cases hj : e.sensor_type = 'J'
      · simp [async_set_state, hs, hl, hj] at hb
      · cases hres : (async_send_command st SET_COMMAND
            (some [PyTok.s (mkBToken attr v)]) w).result with
        | ok u =>
          simp only [async_set_state, hs, hl, hj, hres, ite_false, if_neg] at hb ⊢
          refine ⟨?_, setValueA sd attr v, ?_, ?_⟩
          · injection hb with h2
            exact h2.symm
          · rw [hsens, hs]
            rfl
          · rw [lookupA_setValueA, hl]
            rfl
        | error err =>
          cases err <;> simp [async_set_state, hs, hl, hj, hres] at hb

/-- A device state holding the writable sensor `00300`, used for the
acknowledged-write evaluation. -/
def c7State : FourHeat :=
  { sensors := some [("00300".data, { sensor_type := 'I', value := 0 })],
    initialized := true, last_error := none,
    command_is_running := none, fourheat := none, settings_store := none }

/-- The device's acknowledgement to `write("00300", 42)`: status echoes the
first query token, the `A`-typed reading echoes id and value. -/
def c7Wire : Wire := Wire.recv ("['SEC', 0, 'A00300000000000042']".data)

/-- C7 witness: the acknowledged write at a concrete input. -/
theorem c7_set_state_validation_witness :
    CmdOutcome.success = CmdOutcome.success ∧
    ∃ sd2, (async_set_state c7State ("00300".data) 42 c7Wire).state.sensors = some sd2 ∧
      (lookupA sd2 ("00300".data)).map (fun e => e.value) = some (42 : Int) :=
  (c7_set_state_validation c7State
      [("00300".data, { sensor_type := 'I', value := 0 })]
      ("00300".data) 42 c7Wire rfl).2.2 CmdOutcome.success rfl

/-- The busy-wait loop always proceeds exactly when the cooldown window
elapses: a caller arriving at any second up to the end of the window
re-tests until `failT + RETRY_UPDATE_SLEEP`. -/
theorem pollProceed_spec (failT t0 : Nat) (h : t0 ≤ failT + RETRY_UPDATE_SLEEP) :
    pollProceed failT t0 = failT + RETRY_UPDATE_SLEEP := by
  have hk : ∀ k t1, failT + RETRY_UPDATE_SLEEP - t1 = k → t1 ≤ failT + RETRY_UPDATE_SLEEP →
      pollProceed failT t1 = failT + RETRY_UPDATE_SLEEP := by
    intro k
    induction k with
    | zero =>
      intro t1 hk0 hle
      have ht : t1 = failT + RETRY_UPDATE_SLEEP := by omega
      rw [pollProceed]
      have hbf : busyDuringCooldown failT t1 = false := by
        simp only [busyDuringCooldown, decide_eq_false_iff_not]
        omega
      rw [hbf]
      simp [ht]
    | succ k ih =>
      intro t1 hk0 hle
      have ht : t1 < failT + RETRY_UPDATE_SLEEP := by omega
      rw [pollProceed]
      have hbt : busyDuringCooldown failT t1 = true := by
        simp only [busyDuringCooldown, decide_eq_true_eq]
        omega
      rw [hbt]
      simp only [if_true]
      exact ih (t1 + 1) (by omega) (by omega)
  exact hk (failT + RETRY_UPDATE_SLEEP - t0) t0 rfl h

/-- C3: a transport-level `DeviceConnectionError` makes the dispatch
re-raise promptly as `FourHeatCommandError` wrapping the connection error,
with the cooldown merely scheduled (fire-and-forget); a dispatch arriving
at any second of the 5-second cooldown window re-tests the busy flag until
the window elapses, and the gate is clear exactly at
`failT + RETRY_UPDATE_SLEEP`, before its new exchange is attempted. -/
theorem c3_conn_error_cooldown_blocks (st : FourHeat) (cmd : List Char)
    (arg : Option (List PyTok)) (base : Query) (h : commandsTable cmd = some base)
    (failT t0 : Nat) (hwin : failT ≤ t0) (h2 : t0 ≤ failT + RETRY_UPDATE_SLEEP) :
    (async_send_command st cmd arg Wire.fail).result =
      .error (.fourHeatCommandError .deviceConnectionError) ∧
    (async_send_command st cmd arg Wire.fail).cooldown = true ∧
    pollProceed failT t0 = failT + RETRY_UPDATE_SLEEP ∧
    busyDuringCooldown failT (pollProceed failT t0) = false := by
  refine ⟨?_, ?_, pollProceed_spec failT t0 h2, ?_⟩
  · exact async_send_command_wraps_conn_error st cmd arg Wire.fail base h rfl
  · rw [async_send_command_cooldown st cmd arg Wire.fail base h]
    rfl
  · rw [pollProceed_spec failT t0 h2]
    simp [busyDuringCooldown]

/-- C3 witness: a failing `get` dispatch with a caller arriving two seconds
into the cooldown window. -/
theorem c3_conn_error_cooldown_blocks_witness :
    (async_send_command baseState GET_COMMAND none Wire.fail).result =
      .error (.fourHeatCommandError .deviceConnectionError) ∧
    (async_send_command baseState GET_COMMAND none Wire.fail).cooldown = true ∧
    pollProceed 0 2 = 0 + RETRY_UPDATE_SLEEP ∧
    busyDuringCooldown 0 (pollProceed 0 2) = false :=
  c3_conn_error_cooldown_blocks baseState GET_COMMAND none commandBase (by decide)
    0 2 (by decide) (by decide)

/-- A step of the gate semantics preserves the gate invariant. -/
theorem gateStep_preserves_inv {c c' : GateConfig} (hs : GateStep c c')
    (hinv : GateInv c) : GateInv c' := by
  cases hs with
  | schedule i ha hp =>
    intro j hj
    rcases hinv j hj with ⟨haj, hbj⟩
    rw [ha] at haj
    exact Option.noConfusion haj
  | observeBusy i ha hp hb =>
    intro j hj
    have hj' : Function.update c.pc i GatePC.sleeping j = GatePC.crit := hj
    by_cases hij : j = i
    · subst hij
      rw [Function.update_same] at hj'
      exact absurd hj' (by decide)
    · rw [Function.update_noteq hij] at hj'
      rcases hinv j hj' with ⟨haj, hbj⟩
      rw [ha] at haj
      exact absurd (Option.some.inj haj) (fun hne => hij hne.symm)
  | wake i ha hp =>
    intro j hj
    have hj' : Function.update c.pc i GatePC.poll j = GatePC.crit := hj
    by_cases hij : j = i
    · subst hij
      rw [Function.update_same] at hj'
      exact absurd hj' (by decide)
    · rw [Function.update_noteq hij] at hj'
      rcases hinv j hj' with ⟨haj, hbj⟩
      rw [ha] at haj
      exact Option.noConfusion haj
  | enter i ha hp hb =>
    intro j hj
    have hj' : Function.update c.pc i GatePC.crit j = GatePC.crit := hj
    by_cases hij : j = i
    · subst hij
      exact ⟨ha, rfl⟩
    · rw [Function.update_noteq hij] at hj'
      rcases hinv j hj' with ⟨haj, hbj⟩
      rw [hb] at hbj
      exact Bool.noConfusion hbj
  | finishOk i ha hp =>
    intro j hj
    have hj' : Function.update c.pc i GatePC.done j = GatePC.crit := hj
    by_cases hij : j = i
    · subst hij
      rw [Function.update_same] at hj'
      exact absurd hj' (by decide)
    · rw [Function.update_noteq hij] at hj'
      rcases hinv j hj' with ⟨haj, hbj⟩
      rw [ha] at haj
      exact absurd (Option.some.inj haj) (fun hne => hij hne.symm)
  | finishFail i ha hp =>
    intro j hj
    have hj' : Function.update c.pc i GatePC.done j = GatePC.crit := hj
    by_cases hij : j = i
    · subst hij
      rw [Function.update_same] at hj'
      exact absurd hj' (by decide)
    · rw [Function.update_noteq hij] at hj'
      rcases hinv j hj' with ⟨haj, hbj⟩
      rw [ha] at haj
      exact absurd (Option.some.inj haj) (fun hne => hij hne.symm)
  | cooldownRun ha hcd =>
    intro j hj
    rcases hinv j hj with ⟨haj, hbj⟩
    rw [ha] at haj
    exact Option.noConfusion haj

/-- C8: in every configuration the event loop can reach from two callers
at an IDLE gate, at most one caller is inside a transport exchange — the
busy-flag observation and the BUSY transition happen in one scheduling
step (there is no suspension point between the final loop test, the flag
assignment and the synchronous socket exchange), so two callers can never
both be in flight, and the flag is set whenever someone is. -/
theorem c8_single_flight (c : GateConfig)
    (h : Relation.ReflTransGen GateStep gateInit c) :
    (∀ i j : Fin 2, c.pc i = .crit → c.pc j = .crit → i = j) ∧
    (∀ i : Fin 2, c.pc i = .crit → c.busy = true) := by
  have hinv : GateInv c := by
    induction h with
    | refl =>
      intro i hi
      simp [gateInit] at hi
    | tail hsteps hstep ih =>
      exact gateStep_preserves_inv hstep ih
  refine ⟨?_, fun i hi => (hinv i hi).2⟩
  intro i j hi hj
  have hai := (hinv i hi).1
  have haj := (hinv j hj).1
  rw [hai] at haj
  exact Option.some.inj haj

/-- The configuration after caller 0 is scheduled and atomically passes the
busy test, marks the gate and starts its exchange. -/
def gateMid : GateConfig :=
  { busy := true, active := some 0,
    pc := Function.update (fun _ => GatePC.poll) 0 GatePC.crit, cdPending := false }

/-- C8 witness: the invariant applied at a reachable configuration with
caller 0 inside the exchange. -/
theorem c8_single_flight_witness : ((0 : Fin 2) = 0) ∧ gateMid.busy = true :=
  have hreach : Relation.ReflTransGen GateStep gateInit gateMid :=
    Relation.ReflTransGen.tail
      (Relation.ReflTransGen.tail Relation.ReflTransGen.refl
        (GateStep.schedule gateInit 0 rfl rfl))
      (GateStep.enter { gateInit with active := some 0 } 0 rfl rfl rfl)
  ⟨(c8_single_flight gateMid hreach).1 0 0 (by simp [gateMid]) (by simp [gateMid]),
   (c8_single_flight gateMid hreach).2 0 (by simp [gateMid])⟩

/-! ## Arithmetic facts about the digit encoding (for the round-trip claim) -/

/-- Bounds extracted from `Char.isDigit`. -/
theorem isDigit_bounds (c : Char) (h : c.isDigit = true) :
    48 ≤ c.toNat ∧ c.toNat ≤ 57 := by
  simpa [Char.isDigit] using h

/-- A digit character is not the minus sign. -/
theorem isDigit_ne_dash (c : Char) (h : c.isDigit = true) : c ≠ '-' := by
  intro he
  subst he
  exact absurd h (by decide)

/-- A digit character is not the plus sign. -/
theorem isDigit_ne_plus (c : Char) (h : c.isDigit = true) : c ≠ '+' := by
  intro he
  subst he
  exact absurd h (by decide)

theorem digitChar10_toNat (d : Nat) (h : d < 10) : (digitChar10 d).toNat = 48 + d := by
  interval_cases d <;> decide

theorem digitChar10_isDigit (d : Nat) (h : d < 10) : (digitChar10 d).isDigit = true := by
  interval_cases d <;> decide

/-- Leading zero characters do not change the parsed value. -/
theorem parseNatChars_zeros (k : Nat) (l : List Char) :
    parseNatChars (List.replicate k '0' ++ l) = parseNatChars l := by
  induction k with
  | zero => rfl
  | succ k ih =>
    simp only [List.replicate_succ, List.cons_append, parseNatChars, List.foldl_cons]
    have h0 : 10 * 0 + ('0'.toNat - 48) = 0 := by decide
    rw [h0]
    exact ih

/-- Folding the digit-accumulation over a digit list recovers `ofDigits`. -/
theorem foldr_digit_acc (L : List Nat) (h : ∀ d ∈ L, d < 10) :
    L.foldr (fun d y => 10 * y + ((digitChar10 d).toNat - 48)) 0 = Nat.ofDigits 10 L := by
  induction L with
  | nil => simp [Nat.ofDigits]
  | cons d L ih =>
    have hd : d < 10 := h d (List.mem_cons_self d L)
    have hL : ∀ e ∈ L, e < 10 := fun e he => h e (List.mem_cons_of_mem d he)
    simp only [List.foldr_cons, Nat.ofDigits_cons, ih hL, digitChar10_toNat d hd]
    omega

/-- Parsing the printed digit string of a digit list recovers `ofDigits`. -/
theorem parseNatChars_digitsList (L : List Nat) (h : ∀ d ∈ L, d < 10) :
    parseNatChars (L.reverse.map digitChar10) = Nat.ofDigits 10 L := by
  rw [List.map_reverse]
  unfold parseNatChars
  rw [List.foldl_reverse, List.foldr_map]
  exact foldr_digit_acc L h

/-- The fuel-based digit printer agrees with `Nat.digits`. -/
theorem natToCharsAux_spec :
    ∀ (fuel n : Nat) (acc : List Char), n ≤ fuel →
      natToCharsAux fuel n acc = (Nat.digits 10 n).reverse.map digitChar10 ++ acc := by
  intro fuel
  induction fuel with
  | zero =>
    intro n acc h
    have hn : n = 0 := Nat.le_zero.mp h
    subst hn
    simp [natToCharsAux]
  | succ fuel ih =>
    intro n acc h
    by_cases hn : n = 0
    · subst hn
      simp [natToCharsAux]
    · rw [natToCharsAux, if_neg hn]
      have hdiv : n / 10 ≤ fuel := by
        have := Nat.div_lt_self (Nat.pos_of_ne_zero hn) (by norm_num : (1:Nat) < 10)
        omega
      rw [ih (n / 10) _ hdiv]
      rw [Nat.digits_def' (by norm_num : (1:Nat) < 10) (Nat.pos_of_ne_zero hn)]
      simp [List.reverse_cons, List.append_assoc]

/-- Python `str(n)` prints the base-10 digits, most significant first. -/
theorem natToChars_spec (n : Nat) (hn : n ≠ 0) :
    natToChars n = (Nat.digits 10 n).reverse.map digitChar10 := by
  simp only [natToChars, hn, ite_false, if_neg]
  rw [natToCharsAux_spec n n [] le_rfl]
  simp

/-- Every character of a printed natural number is a digit. -/
theorem natToChars_all_digits (n : Nat) : (natToChars n).all Char.isDigit = true := by
  by_cases hn : n = 0
  · subst hn
    decide
  · rw [natToChars_spec n hn, List.all_eq_true]
    intro c hc
    simp only [List.mem_map, List.mem_reverse] at hc
    obtain ⟨d, hd, rfl⟩ := hc
    exact digitChar10_isDigit d (Nat.digits_lt_base (by norm_num) hd)

/-- A printed natural number is never the empty string. -/
theorem natToChars_ne_nil (n : Nat) : natToChars n ≠ [] := by
  by_cases hn : n = 0
  · subst hn
    decide
  · rw [natToChars_spec n hn]
    simp [Nat.digits_ne_nil_iff_ne_zero.mpr hn]

theorem natToChars_length (n : Nat) (hn : n ≠ 0) :
    (natToChars n).length = Nat.log 10 n + 1 := by
  rw [natToChars_spec n hn]
  simp [Nat.digits_len 10 n (by norm_num) hn]

/-- A natural below `10^11` prints in at most 11 characters. -/
theorem natToChars_length_le11 (n : Nat) (h : n < 10 ^ 11) :
    (natToChars n).length ≤ 11 := by
  by_cases hn : n = 0
  · subst hn
    decide
  · rw [natToChars_length n hn]
    have := (Nat.lt_pow_iff_log_lt (by norm_num : (1:Nat) < 10) hn).mp h
    omega

/-- A natural at least `10^11` prints in at least 12 characters. -/
theorem natToChars_length_ge12 (n : Nat) (h : 10 ^ 11 ≤ n) :
    12 ≤ (natToChars n).length := by
  have hn : n ≠ 0 := by
    rintro rfl
    norm_num at h
  rw [natToChars_length n hn]
  by_contra hlt
  have hlog : Nat.log 10 n < 11 := by omega
  have := (Nat.lt_pow_iff_log_lt (by norm_num : (1:Nat) < 10) hn).mpr hlog
  omega

/-- A nonzero natural dominates the power at one digit less. -/
theorem pow_pred_length_le (n : Nat) (hn : n ≠ 0) :
    10 ^ ((natToChars n).length - 1) ≤ n := by
  rw [natToChars_length n hn]
  simp only [Nat.add_sub_cancel]
  exact Nat.pow_log_le_self 10 hn

/-- Printing then parsing a natural is the identity. -/
theorem parseNatChars_natToChars (n : Nat) : parseNatChars (natToChars n) = n := by
  by_cases hn : n = 0
  · subst hn
    decide
  · rw [natToChars_spec n hn,
      parseNatChars_digitsList _ (fun d hd => Nat.digits_lt_base (by norm_num) hd),
      Nat.ofDigits_digits]

/-- The parsed value of a digit string is below `10^length`. -/
theorem parseNatChars_lt (l : List Char) (h : l.all Char.isDigit = true) :
    parseNatChars l < 10 ^ l.length := by
  suffices H : ∀ (m : List Char) (a : Nat), m.all Char.isDigit = true →
      m.foldl (fun a c => 10 * a + (c.toNat - 48)) a < (a + 1) * 10 ^ m.length by
    simpa [parseNatChars] using H l 0 h
  intro m
  induction m with
  | nil =>
    intro a _
    simp only [List.foldl_nil, List.length_nil, pow_zero, mul_one]
    exact Nat.lt_succ_self a
  | cons c m ih =>
    intro a hall
    simp only [List.all_cons, Bool.and_eq_true] at hall
    obtain ⟨hc, hm⟩ := hall
    obtain ⟨hc1, hc2⟩ := isDigit_bounds c hc
    simp only [List.foldl_cons, List.length_cons]
    have h1 := ih (10 * a + (c.toNat - 48)) hm
    have h2 : (10 * a + (c.toNat - 48) + 1) * 10 ^ m.length ≤ (a + 1) * 10 ^ (m.length + 1) := by
      have hcoef : 10 * a + (c.toNat - 48) + 1 ≤ (a + 1) * 10 := by omega
      calc (10 * a + (c.toNat - 48) + 1) * 10 ^ m.length
          ≤ ((a + 1) * 10) * 10 ^ m.length := Nat.mul_le_mul_right _ hcoef
        _ = (a + 1) * 10 ^ (m.length + 1) := by ring
    exact lt_of_lt_of_le h1 h2

/-- Dropping characters preserves all-digits. -/
theorem all_digits_drop (l : List Char) (k : Nat) (h : l.all Char.isDigit = true) :
    (l.drop k).all Char.isDigit = true := by
  rw [List.all_eq_true] at h ⊢
  intro c hc
  exact h c (List.mem_of_mem_drop hc)

/-- Zero-padding preserves all-digits. -/
theorem all_digits_replicate_append (k : Nat) (l : List Char)
    (h : l.all Char.isDigit = true) :
    (List.replicate k '0' ++ l).all Char.isDigit = true := by
  rw [List.all_append, h, Bool.and_true, List.all_eq_true]
  intro c hc
  rw [List.eq_of_mem_replicate hc]
  decide

/-- Python `int()` on a non-empty all-digit string parses the digits. -/
theorem pyIntParse_digits (l : List Char) (hne : l ≠ [])
    (h : l.all Char.isDigit = true) :
    pyIntParse l = some ((parseNatChars l : Nat) : Int) := by
  cases l with
  | nil => exact absurd rfl hne
  | cons c rest =>
    have hall := h
    simp only [List.all_cons, Bool.and_eq_true] at h
    simp only [pyIntParse, if_neg (isDigit_ne_dash c h.1), if_neg (isDigit_ne_plus c h.1),
      hall, if_pos]

/-- The `zfill` never returns fewer than `w` characters. -/
theorem pyZfill_length_ge (s : List Char) (w : Nat) : w ≤ (pyZfill s w).length := by
  cases s with
  | nil => simp [pyZfill]
  | cons c rest =>
    by_cases hs : c = '-' ∨ c = '+'
    · by_cases hl : rest.length + 1 < w
      · simp [pyZfill, hs, hl]
        omega
      · simp [pyZfill, hs, hl]
        omega
    · simp [pyZfill, hs]
      omega

/-- The `zfill` on an all-digit string pads with zeros in front. -/
theorem pyZfill_digits (L : List Char) (hne : L ≠ []) (hall : L.all Char.isDigit = true) :
    pyZfill L 12 = List.replicate (12 - L.length) '0' ++ L := by
  cases L with
  | nil => exact absurd rfl hne
  | cons c rest =>
    simp only [List.all_cons, Bool.and_eq_true] at hall
    simp only [pyZfill]
    rw [if_neg]
    rintro (h | h)
    · exact isDigit_ne_dash c hall.1 h
    · exact isDigit_ne_plus c hall.1 h

/-- Parsing the value suffix of an encoded non-negative value below `10^11`
recovers the value. -/
theorem parse_suffix_nonneg (n : Nat) (h : n < 10 ^ 11) :
    pyIntParse ((pyZfill (natToChars n) 12).drop 1) = some ((n : Nat) : Int) := by
  have hL := natToChars_length_le11 n h
  have hall := natToChars_all_digits n
  have hne := natToChars_ne_nil n
  have hpos : 1 ≤ (natToChars n).length := List.length_pos.mpr hne
  rw [pyZfill_digits _ hne hall]
  rw [show 12 - (natToChars n).length = (11 - (natToChars n).length) + 1 from by omega]
  rw [List.replicate_succ, List.cons_append, List.drop_succ_cons, List.drop_zero]
  have hne2 : List.replicate (11 - (natToChars n).length) '0' ++ natToChars n ≠ [] := by
    intro heq
    exact hne (List.append_eq_nil.mp heq).2
  rw [pyIntParse_digits _ hne2 (all_digits_replicate_append _ _ hall),
    parseNatChars_zeros, parseNatChars_natToChars]

/-- Parsing the value suffix of an encoded value at least `10^11` drops the
leading digit and yields a strictly smaller value. -/
theorem parse_suffix_big (n : Nat) (h : 10 ^ 11 ≤ n) :
    ∃ wn : Nat, pyIntParse ((pyZfill (natToChars n) 12).drop 1) = some ((wn : Nat) : Int) ∧
      wn < n := by
  have hge := natToChars_length_ge12 n h
  have hall := natToChars_all_digits n
  have hne := natToChars_ne_nil n
  have hn0 : n ≠ 0 := by
    rintro rfl
    norm_num at h
  rw [pyZfill_digits _ hne hall]
  rw [show 12 - (natToChars n).length = 0 from by omega]
  rw [List.replicate_zero, List.nil_append]
  have hdall := all_digits_drop (natToChars n) 1 hall
  have hdlen : ((natToChars n).drop 1).length = (natToChars n).length - 1 :=
    List.length_drop 1 _
  have hdne : (natToChars n).drop 1 ≠ [] := by
    intro heq
    rw [heq] at hdlen
    simp at hdlen
    omega
  rw [pyIntParse_digits _ hdne hdall]
  refine ⟨parseNatChars ((natToChars n).drop 1), rfl, ?_⟩
  have hlt := parseNatChars_lt _ hdall
  rw [hdlen] at hlt
  exact lt_of_lt_of_le hlt (pow_pred_length_le n hn0)

/-- Parsing the value suffix of an encoded negative value yields some
non-negative value (the sign character at index 6 is discarded). -/
theorem parse_suffix_neg (n : Nat) :
    ∃ wn : Nat, pyIntParse ((pyZfill ('-' :: natToChars n) 12).drop 1) = some ((wn : Nat) : Int) := by
  have hall := natToChars_all_digits n
  have hne := natToChars_ne_nil n
  by_cases hlen : (natToChars n).length + 1 < 12
  · have heq : pyZfill ('-' :: natToChars n) 12 =
        '-' :: (List.replicate (11 - (natToChars n).length) '0' ++ natToChars n) := by
      simp only [pyZfill]
      simp [hlen]
    rw [heq, List.drop_succ_cons, List.drop_zero]
    have hne2 : List.replicate (11 - (natToChars n).length) '0' ++ natToChars n ≠ [] := by
      intro h
      exact hne (List.append_eq_nil.mp h).2
    rw [pyIntParse_digits _ hne2 (all_digits_replicate_append _ _ hall)]
    exact ⟨_, rfl⟩
  · have heq : pyZfill ('-' :: natToChars n) 12 = '-' :: natToChars n := by
      simp only [pyZfill]
      simp [hlen]
    rw [heq, List.drop_succ_cons, List.drop_zero]
    rw [pyIntParse_digits _ hne hall]
    exact ⟨_, rfl⟩

/-- The token built by `async_set_state` (`f"B{attr}{str(value).zfill(12)}"`)
for an arbitrary type character. -/
def encodeToken (t : Char) (id : List Char) (v : Int) : List Char :=
  t :: (id ++ pyZfill (pyIntStr v) 12)

/-- The `B` write token of the source is the generic encoder at `'B'`. -/
theorem mkBToken_eq_encodeToken (id : List Char) (v : Int) :
    mkBToken id v = encodeToken 'B' id v := rfl

/-- The `I` read token of the source is the generic encoder at `'I'` and
value `0`. -/
theorem mkIToken_eq_encodeToken (id : List Char) :
    mkIToken id = encodeToken 'I' id 0 := rfl

/-- Evaluation of the sensor-token parser on one encoded token whose value
suffix parses to `w`. -/
theorem encode_parse_eval (t : Char) (id : List Char) (v : Int) (hid : id.length = 5)
    (w : Int) (hp : pyIntParse ((pyZfill (pyIntStr v) 12).drop 1) = some w) :
    parseSensors [PyVal.str (encodeToken t id v)] =
      some [{ id := id, sensor_type := t, value := w }] := by
  have hdrop : (encodeToken t id v).drop 7 = (pyZfill (pyIntStr v) 12).drop 1 := by
    show (id ++ pyZfill (pyIntStr v) 12).drop 6 = (pyZfill (pyIntStr v) 12).drop 1
    rw [show (6 : Nat) = id.length + 1 from by omega]
    exact List.drop_append 1
  have hlen : (encodeToken t id v).length > 6 := by
    have := pyZfill_length_ge (pyIntStr v) 12
    simp only [encodeToken, List.length_cons, List.length_append, hid]
    omega
  have hslice : ((encodeToken t id v).drop 1).take 5 = id := by
    show (id ++ pyZfill (pyIntStr v) 12).take 5 = id
    rw [show (5 : Nat) = id.length from hid.symm]
    exact List.take_left id _
  have hhd : (encodeToken t id v).head?.getD ' ' = t := rfl
  simp only [List.drop_one] at hdrop hp hslice
  simp [parseSensors, hlen, hdrop, hp, hslice, hhd]

/-- C10: encoding a token as `typeChar + 5-char id + value zero-padded to
12 digits` and parsing it back always preserves the id and the sensor
type, but preserves the value exactly when `0 ≤ value < 10^11`: the parser
reads the value from `chars[7:]`, discarding the character at index 6 (the
first character of the 12-wide value field), so larger and negative values
decode to a different value. -/
theorem c10_encode_parse_roundtrip (t : Char) (id : List Char) (v : Int)
    (hid : id.length = 5) :
    ∃ w : Int,
      parseSensors [PyVal.str (encodeToken t id v)] =
        some [{ id := id, sensor_type := t, value := w }] ∧
      (w = v ↔ 0 ≤ v ∧ v < 10 ^ 11) := by
  by_cases hneg : v < 0
  · have hstr : pyIntStr v = '-' :: natToChars v.natAbs := by
      simp [pyIntStr, hneg]
    obtain ⟨wn, hwn⟩ := parse_suffix_neg v.natAbs
    refine ⟨(wn : Int), ?_, ?_⟩
    · apply encode_parse_eval t id v hid
      rw [hstr]
      exact hwn
    · have h0 : (0 : Int) ≤ (wn : Int) := Int.natCast_nonneg wn
      refine iff_of_false ?_ ?_
      · intro h
        omega
      · rintro ⟨h0', -⟩
        omega
  · have hv0 : 0 ≤ v := not_lt.mp hneg
    have hcast : ((v.natAbs : Nat) : Int) = v := Int.natAbs_of_nonneg hv0
    have hstr : pyIntStr v = natToChars v.natAbs := by
      simp [pyIntStr, hneg]
    by_cases hbig : (10 : Int) ^ 11 ≤ v
    · have hn : 10 ^ 11 ≤ v.natAbs := by
        have h' := hbig
        rw [← hcast] at h'
        exact_mod_cast h'
      obtain ⟨wn, hwn, hlt⟩ := parse_suffix_big v.natAbs hn
      refine ⟨(wn : Int), ?_, ?_⟩
      · apply encode_parse_eval t id v hid
        rw [hstr]
        exact hwn
      · refine iff_of_false ?_ ?_
        · intro h
          omega
        · rintro ⟨-, hlt'⟩
          exact absurd hlt' (not_lt.mpr hbig)
    · have hvlt : v < 10 ^ 11 := not_le.mp hbig
      have hn : v.natAbs < 10 ^ 11 := by
        have h' := hvlt
        rw [← hcast] at h'
        exact_mod_cast h'
      have hwn := parse_suffix_nonneg v.natAbs hn
      refine ⟨((v.natAbs : Nat) : Int), ?_, ?_⟩
      · apply encode_parse_eval t id v hid
        rw [hstr]
        exact hwn
      · exact iff_of_true hcast ⟨hv0, hvlt⟩

/-- C10 witness: the round trip at the concrete write token
`B00300000000000042`. -/
theorem c10_encode_parse_roundtrip_witness :
    ∃ w : Int,
      parseSensors [PyVal.str (encodeToken 'B' ("00300".data) 42)] =
        some [{ id := "00300".data, sensor_type := 'B', value := w }] ∧
      (w = 42 ↔ (0 : Int) ≤ 42 ∧ (42 : Int) < 10 ^ 11) :=
  c10_encode_parse_roundtrip 'B' ("00300".data) 42 (by decide)
